import Mathlib

/-!
Shallow embedding of `sky/utils/timeline.py` (event-timeline recorder).

The Python module records begin/end timestamped spans into a process-wide
buffer (`_events`) and serializes the buffer to a trace-event JSON file at
process exit.  We embed it as pure Lean functions:

* ambient OS state (process id, thread id, wall clock) is an explicit
  `Ctx` argument — a function that does not read some component of the
  ambient state simply ignores it, mirroring which system calls the
  Python code actually performs;
* the module-global `_events` list is threaded explicitly as a
  `List EventRecord` value (append-only, insertion order);
* the external `filelock.FileLock` capability is modelled by its counter
  semantics (reentrant acquire increments, release decrements, `is_locked`
  is "counter nonzero"); for failure claims the external acquire call is a
  parameter returning `Except`;
* Python exceptions become `Except` values, propagated alongside the
  buffer state (exceptions do not roll back the buffer);
* `time.time()` is an exact rational; Python float formatting
  `f-string ' .3f'` is embedded as `fmtSpace3f` (round to 3 decimals,
  space flag for non-negative values).
-/

namespace Timeline

/-- Ambient OS context at some instant: the current process id and thread id
(as the strings Python would produce) and the current wall-clock time in
seconds (`time.time()`), as an exact rational. -/
structure Ctx where
  pid : String
  tid : String
  now : ℚ

/-- Decimal digit character, `chr(48 + n)` for `n < 10`. -/
def digitChar (n : Nat) : Char := Char.ofNat (48 + n)

/-- Fuel-driven little-endian decimal digit list of a natural number:
Python's `str(int)` for non-negative ints, digits reversed.  Fuel `n + 1`
always suffices. -/
def natDigitsRev : Nat → Nat → List Char
  | 0, _ => []
  | fuel + 1, n =>
    if n < 10 then [digitChar n] else digitChar (n % 10) :: natDigitsRev fuel (n / 10)

/-- Python `str(n)` for a non-negative integer. -/
def natRepr (n : Nat) : String := ⟨(natDigitsRev (n + 1) n).reverse⟩

/-- Zero-padded three-digit decimal rendering of `n % 1000` — the fractional
part of a `%.3f` rendering. -/
def pad3 (n : Nat) : List Char :=
  [digitChar (n / 100 % 10), digitChar (n / 10 % 10), digitChar (n % 10)]

/-- Python format-spec `' .3f'` applied to an exact rational: fixed-point with
three digits after the decimal point, a leading space for non-negative values
(a minus sign for negative ones).  The value is rounded to the nearest
thousandth. -/
def fmtSpace3f (x : ℚ) : String :=
  (if x < 0 then "-" else " ") ++
    natRepr ((round (x * 1000)).natAbs / 1000) ++ "." ++ ⟨pad3 ((round (x * 1000)).natAbs % 1000)⟩

/-- Exact numeric value denoted by the `' .3f'` rendering of the
microsecond timestamp of a record emitted at wall-clock time `t`
(seconds): `t * 10^6` rounded to the nearest thousandth. -/
def tsValue (t : ℚ) : ℚ := (round (t * 10 ^ 6 * 1000) : ℚ) / 1000

/-- One record of the `_events` buffer: the Python dict built by
`Event.__init__` and completed by `begin`/`end`.  Key order in the dict is
`name, cat, pid, tid, args, ph, ts`.  `args = some m` models the key `args`
being present with value `{'message': m}` where `m` may be `None`;
`args = none` models the key being absent (which the code never produces,
but the distinction is observable in the JSON output). -/
structure EventRecord where
  name : String
  cat : String
  pid : String
  tid : String
  args : Option (Option String)
  ph : String
  ts : String
deriving DecidableEq, Repr

/-- JSON values, as far as this module's output needs: objects keep their
key insertion order, exactly as Python dicts serialized by `json.dump`. -/
inductive Json where
  | str : String → Json
  | arr : List Json → Json
  | obj : List (String × Json) → Json
  | null : Json

/-- Value of key `k` in a JSON object. -/
def Json.lookup : Json → String → Option Json
  | .obj kvs, k => (kvs.find? (fun kv => kv.1 = k)).map (·.2)
  | _, _ => none

/-- Serialization of one buffer record by `json.dump`: the dict keys in
insertion order; the `args` key present exactly when the dict holds it, with
a `message` value that is a JSON string or `null`. -/
def EventRecord.toJson (r : EventRecord) : Json :=
  Json.obj
    ([("name", Json.str r.name), ("cat", Json.str r.cat),
      ("pid", Json.str r.pid), ("tid", Json.str r.tid)]
      ++ (match r.args with
          | none => []
          | some m => [("args", Json.obj [("message", match m with
              | none => Json.null
              | some s => Json.str s)])])
      ++ [("ph", Json.str r.ph), ("ts", Json.str r.ts)])

/-- The `Event` class: `_name`, `_message`, and the template dict `_event`
built at construction time (no `ph`/`ts` yet — modelled as `""`). -/
structure Event where
  _name : String
  _message : Option String
  _event : EventRecord

/-- `Event.__init__(name, message)` under ambient context `ctx`: the template
dict captures `os.getpid()` and `threading.current_thread().ident` of the
constructing context; `args` is set to `{'message': message}` unconditionally,
then redundantly re-set when a message is present (mirroring the source). -/
def Event.create (ctx : Ctx) (name : String) (message : Option String) : Event :=
  let ev : EventRecord :=
    { name := name, cat := "event", pid := ctx.pid, tid := ctx.tid,
      args := some message, ph := "", ts := "" }
  let ev := if message ≠ none then { ev with args := some message } else ev
  { _name := name, _message := message, _event := ev }

/-- The record `Event.begin` appends under ambient context `ctx`: a copy of
the template updated with `ph = 'B'` and the `' .3f'`-formatted microsecond
timestamp; `args` is redundantly re-set when a message is present. -/
def Event.beginRecord (e : Event) (ctx : Ctx) : EventRecord :=
  let event_begin := { e._event with ph := "B", ts := fmtSpace3f (ctx.now * 10 ^ 6) }
  if e._message ≠ none then { event_begin with args := some e._message } else event_begin

/-- `Event.begin(self)` under ambient context `ctx`, acting on the global
`_events` buffer. -/
def Event.begin (e : Event) (ctx : Ctx) (events : List EventRecord) : List EventRecord :=
  events ++ [e.beginRecord ctx]

/-- The record `Event.end` appends under ambient context `ctx` (`ph = 'E'`). -/
def Event.endRecord (e : Event) (ctx : Ctx) : EventRecord :=
  let event_end := { e._event with ph := "E", ts := fmtSpace3f (ctx.now * 10 ^ 6) }
  if e._message ≠ none then { event_end with args := some e._message } else event_end

/-- `Event.end(self)` under ambient context `ctx` (named `end'` because `end`
is a Lean keyword). -/
def Event.end' (e : Event) (ctx : Ctx) (events : List EventRecord) : List EventRecord :=
  events ++ [e.endRecord ctx]

/-- Context-manager use of an `Event` (`__enter__` calls `begin`,
`__exit__` calls `end` on every exit path): the body is a state transformer
on the buffer that either returns a value or raises (`Except.error`);
either way the buffer it produced is kept and the `End` record is appended
to it, and the body's outcome propagates unchanged. -/
def Event.withScope (e : Event) (ctxB ctxE : Ctx)
    (body : List EventRecord → Except ε α × List EventRecord)
    (events : List EventRecord) : Except ε α × List EventRecord :=
  let events := e.begin ctxB events
  let res := body events
  (res.1, e.end' ctxE res.2)

/-- `FileLockEvent`: the lock-file path and the long-lived hold-span `Event`
built at construction.  The external `filelock.FileLock` state is modelled by
its reentrancy counter (a `Nat`, threaded explicitly): `is_locked` is
"counter nonzero", `acquire` increments it, `release` decrements it (and is a
no-op on an unlocked lock). -/
structure FileLockEvent where
  _lockfile : String
  _hold_lock_event : Event

/-- `FileLockEvent.__init__(lockfile)` under ambient context `ctx`. -/
def FileLockEvent.create (ctx : Ctx) (lockfile : String) : FileLockEvent :=
  { _lockfile := lockfile,
    _hold_lock_event := Event.create ctx ("[FileLock.hold]:" ++ lockfile) none }

/-- `FileLockEvent.acquire(self)` when the external `self._lock.acquire()`
call succeeds.  `ctxB`/`ctxE` are the ambient contexts at the transient
`[FileLock.acquire]` event's begin and end, `ctxH` at the hold-span begin;
`cnt` is the external lock's reentrancy counter.  Returns the new counter and
buffer.  Mirrors: query `is_locked` before, wrap the acquire in a
`with Event(...)` scope, begin the hold-span on a not-locked → locked
transition. -/
def FileLockEvent.acquire (fl : FileLockEvent) (ctxB ctxE ctxH : Ctx)
    (cnt : Nat) (events : List EventRecord) : Nat × List EventRecord :=
  let was_locked := cnt ≠ 0
  let acqEvent := Event.create ctxB ("[FileLock.acquire]:" ++ fl._lockfile) none
  let events := acqEvent.begin ctxB events
  let cnt' := cnt + 1
  let events := acqEvent.end' ctxE events
  if ¬ was_locked ∧ cnt' ≠ 0 then (cnt', fl._hold_lock_event.begin ctxH events)
  else (cnt', events)

/-- `FileLockEvent.acquire(self)` with the external lock's acquire call left
as a parameter `lockAcq` that may raise (return `Except.error`).  On success
it yields the new counter.  On failure the `with Event(...)` scope still ends
the `[FileLock.acquire]` span, the hold-span is not begun, the counter is
unchanged, and the error propagates. -/
def FileLockEvent.acquireGen (fl : FileLockEvent) (ctxB ctxE ctxH : Ctx)
    (lockAcq : Nat → Except ε Nat) (cnt : Nat) (events : List EventRecord) :
    Except ε Unit × Nat × List EventRecord :=
  let was_locked := cnt ≠ 0
  let acqEvent := Event.create ctxB ("[FileLock.acquire]:" ++ fl._lockfile) none
  let events := acqEvent.begin ctxB events
  match lockAcq cnt with
  | .error err => (.error err, cnt, acqEvent.end' ctxE events)
  | .ok cnt' =>
    let events := acqEvent.end' ctxE events
    if ¬ was_locked ∧ cnt' ≠ 0 then (.ok (), cnt', fl._hold_lock_event.begin ctxH events)
    else (.ok (), cnt', events)

/-- `FileLockEvent.release(self)` under ambient context `ctx`: query
`is_locked` before, release the external lock (counter decrement, no-op at
zero), and end the hold-span on a locked → not-locked transition. -/
def FileLockEvent.release (fl : FileLockEvent) (ctx : Ctx)
    (cnt : Nat) (events : List EventRecord) : Nat × List EventRecord :=
  let was_locked := cnt ≠ 0
  let cnt' := cnt - 1
  if was_locked ∧ cnt' = 0 then (cnt', fl._hold_lock_event.end' ctx events)
  else (cnt', events)

/-- A Python value passed to the `event` decorator: a string (explicit event
name), a function (with its `__qualname__` and `__module__` metadata, the
module possibly empty/falsy), or some other non-function value. -/
structure PyFunction where
  qualname : String
  module : String

/-- Runtime classification of `name_or_fn`. -/
inductive PyVal where
  | str : String → PyVal
  | func : PyFunction → PyVal
  | nonFunc : PyVal

/-- Result of decorating: a wrapped callable that runs every call inside
`Event(name, message)` scoped acquisition.  The string-name form and the
direct-function form produce the same call-time behaviour, differing only in
where the name came from. -/
structure Decorated where
  name : String
  message : Option String

/-- Event name the no-name decorator form derives for function `f`:
`getattr(f, '__qualname__', ...)` and `getattr(f, '__module__', '')`, joined
with a dot when the module is truthy (non-empty). -/
def fullNameOf (f : PyFunction) : String :=
  if f.module ≠ "" then f.module ++ "." ++ f.qualname else f.qualname

/-- The `event(name_or_fn, message)` decorator: a string argument yields a
wrapper recording under that name; a function argument yields the function
wrapped under its derived full name; any other value raises `ValueError`
immediately at wrap time. -/
def event (name_or_fn : PyVal) (message : Option String) : Except String Decorated :=
  match name_or_fn with
  | .str s => .ok { name := s, message := message }
  | .func f => .ok { name := fullNameOf f, message := message }
  | .nonFunc => .error "Should directly apply the decorator to a function."

/-- One call of a decorated function: the call runs inside a fresh
`Event(name, message)` scoped acquisition, the `Event` constructed and begun
under the ambient context `ctxB` at call entry and ended under `ctxE` at call
exit. -/
def Decorated.call (d : Decorated) (ctxB ctxE : Ctx)
    (body : List EventRecord → Except ε α × List EventRecord)
    (events : List EventRecord) : Except ε α × List EventRecord :=
  (Event.create ctxB d.name d.message).withScope ctxB ctxE body events

/-- `os.path.dirname` (POSIX): everything up to the last `/`, with trailing
slashes stripped unless the head is all slashes; `""` when the path has no
slash. -/
def posixDirname (p : String) : String :=
  let cs := p.data
  let i := match cs.reverse.findIdx? (· = '/') with
    | none => 0
    | some j => cs.length - j
  let head := cs.take i
  if head ≠ [] ∧ ¬ head.all (· = '/') then ⟨(head.reverse.dropWhile (· = '/')).reverse⟩
  else ⟨head⟩

/-- The directory and its chain of ancestors (via `posixDirname`) down to a
fixpoint (`""`, `"/"`, …), fuel-driven; these are the directories
`os.makedirs` guarantees to exist afterwards. -/
def parentChain : Nat → String → List String
  | 0, _ => []
  | fuel + 1, d =>
    if d = "" then []
    else d :: (if posixDirname d = d then [] else parentChain fuel (posixDirname d))

/-- Abstract filesystem state: which directories exist and the JSON document
stored at each file path. -/
structure FileSystem where
  dirs : String → Bool
  files : String → Option Json

/-- `os.makedirs(d, exist_ok=True)`: fails (raises) on the empty path,
otherwise ensures `d` and all its ancestors exist. -/
def makedirs (d : String) (dirs : String → Bool) : Option (String → Bool) :=
  if d = "" then none
  else some (fun q => if q ∈ parentChain (d.length + 1) d then true else dirs q)

/-- The JSON document `_save_timeline` builds: keys in insertion order
`traceEvents` (the full buffer, insertion order), `displayTimeUnit = "ms"`,
`otherData.log_dir = dirname(file_path)`. -/
def timelineJson (file_path : String) (events : List EventRecord) : Json :=
  Json.obj
    [("traceEvents", Json.arr (events.map EventRecord.toJson)),
     ("displayTimeUnit", Json.str "ms"),
     ("otherData", Json.obj [("log_dir", Json.str (posixDirname file_path))])]

/-- `_save_timeline(file_path)` acting on the buffer and an abstract
filesystem: build the document, `os.makedirs(dirname(file_path),
exist_ok=True)`, then write (overwrite) the file.  `none` models the
exit-time action raising (e.g. `makedirs('')`). -/
def _save_timeline (file_path : String) (events : List EventRecord)
    (fs : FileSystem) : Option FileSystem :=
  let json_output := timelineJson file_path events
  match makedirs (posixDirname file_path) fs.dirs with
  | none => none
  | some dirs' =>
    some { dirs := dirs',
           files := fun q => if q = file_path then some json_output else fs.files q }

/-- The module-level registration guard
`if os.environ.get('SKY_TIMELINE_FILE_PATH'):` — Python truthiness of the
optional string: true exactly when the variable is present and non-empty. -/
def registerGuard (env : String → Option String) : Bool :=
  match env "SKY_TIMELINE_FILE_PATH" with
  | none => false
  | some s => s ≠ ""

/-- The exit actions registered at import time: when the guard holds, a
single `_save_timeline` call on the configured path; otherwise none. -/
def exitActions (env : String → Option String) : List String :=
  if registerGuard env then [(env "SKY_TIMELINE_FILE_PATH").getD ""] else []

/-- Process exit: run every registered exit action on the final buffer. -/
def atExitRun (env : String → Option String) (events : List EventRecord)
    (fs : FileSystem) : FileSystem :=
  (exitActions env).foldl (fun acc p => (_save_timeline p events acc).getD acc) fs

/-! ## Helper lemmas -/

theorem create_event (ctx : Ctx) (name : String) (msg : Option String) :
    (Event.create ctx name msg)._event =
      { name := name, cat := "event", pid := ctx.pid, tid := ctx.tid,
        args := some msg, ph := "", ts := "" } := by
  cases msg <;> simp [Event.create]

theorem create_message (ctx : Ctx) (name : String) (msg : Option String) :
    (Event.create ctx name msg)._message = msg := by
  cases msg <;> simp [Event.create]

theorem beginRecord_create (ctx ctx' : Ctx) (name : String) (msg : Option String) :
    (Event.create ctx name msg).beginRecord ctx' =
      { name := name, cat := "event", pid := ctx.pid, tid := ctx.tid,
        args := some msg, ph := "B", ts := fmtSpace3f (ctx'.now * 10 ^ 6) } := by
  cases msg <;> simp [Event.create, Event.beginRecord]

theorem endRecord_create (ctx ctx' : Ctx) (name : String) (msg : Option String) :
    (Event.create ctx name msg).endRecord ctx' =
      { name := name, cat := "event", pid := ctx.pid, tid := ctx.tid,
        args := some msg, ph := "E", ts := fmtSpace3f (ctx'.now * 10 ^ 6) } := by
  cases msg <;> simp [Event.create, Event.endRecord]

theorem round_mono_q {a b : ℚ} (h : a ≤ b) : round a ≤ round b := by
  rw [round_eq, round_eq]
  exact Int.floor_le_floor (by linarith)

theorem tsValue_mono {a b : ℚ} (h : a ≤ b) : tsValue a ≤ tsValue b := by
  unfold tsValue
  have hr : round (a * 10 ^ 6 * 1000) ≤ round (b * 10 ^ 6 * 1000) :=
    round_mono_q
      (mul_le_mul_of_nonneg_right (mul_le_mul_of_nonneg_right h (by norm_num)) (by norm_num))
  have hc : ((round (a * 10 ^ 6 * 1000) : ℤ) : ℚ) ≤ ((round (b * 10 ^ 6 * 1000) : ℤ) : ℚ) :=
    Int.cast_le.mpr hr
  exact div_le_div_of_nonneg_right hc (by norm_num)

theorem digitChar_isDigit {n : Nat} (h : n < 10) : (digitChar n).isDigit = true := by
  interval_cases n <;> decide

theorem natDigitsRev_digits :
    ∀ fuel n, ∀ c ∈ natDigitsRev fuel n, c.isDigit = true := by
  intro fuel
  induction fuel with
  | zero => intro n c hc; simp [natDigitsRev] at hc
  | succ fuel ih =>
    intro n c hc
    by_cases hn : n < 10
    · simp [natDigitsRev, hn] at hc
      exact hc ▸ digitChar_isDigit hn
    · simp [natDigitsRev, hn] at hc
      rcases hc with hc | hc
      · exact hc ▸ digitChar_isDigit (Nat.mod_lt _ (by norm_num))
      · exact ih _ _ hc

theorem natRepr_digits (n : Nat) : ∀ c ∈ (natRepr n).data, c.isDigit = true := by
  intro c hc
  rw [natRepr] at hc
  exact natDigitsRev_digits _ _ _ (List.mem_reverse.mp hc)

theorem pad3_length (n : Nat) : (pad3 n).length = 3 := rfl

theorem pad3_digits (n : Nat) : ∀ c ∈ pad3 n, c.isDigit = true := by
  intro c hc
  simp [pad3] at hc
  rcases hc with hc | hc | hc <;>
    exact hc ▸ digitChar_isDigit (Nat.mod_lt _ (by norm_num))

theorem isDigit_ne_dot {c : Char} (h : c.isDigit = true) : c ≠ '.' := by
  intro he
  subst he
  exact absurd h (by decide)

theorem fmtSpace3f_nonneg {x : ℚ} (h : 0 ≤ x) :
    fmtSpace3f x =
      " " ++ natRepr ((round (x * 1000)).natAbs / 1000) ++ "." ++
        ⟨pad3 ((round (x * 1000)).natAbs % 1000)⟩ := by
  unfold fmtSpace3f
  simp [not_lt.mpr h]

theorem withScope_frame (e : Event) (ctxB ctxE : Ctx) (events mid : List EventRecord)
    (r : Except ε α) (body : List EventRecord → Except ε α × List EventRecord)
    (h : body (events ++ [e.beginRecord ctxB]) = (r, events ++ [e.beginRecord ctxB] ++ mid)) :
    e.withScope ctxB ctxE body events =
      (r, events ++ [e.beginRecord ctxB] ++ mid ++ [e.endRecord ctxE]) := by
  unfold Event.withScope Event.begin Event.end'
  simp only [h]

theorem self_mem_parentChain {d : String} (h : d ≠ "") (fuel : Nat) :
    d ∈ parentChain (fuel + 1) d := by
  unfold parentChain
  simp [h]

theorem toJson_lookup_ts (r : EventRecord) :
    r.toJson.lookup "ts" = some (Json.str r.ts) := by
  cases hr : r.args <;> simp [EventRecord.toJson, Json.lookup, hr]

/-! ## Claim theorems -/

/-- C1: for any single `Event`, `begin()` followed by `end()` (at wall-clock
times `ctx₁.now ≤ ctx₂.now`) appends exactly two records to the shared
buffer, with identical `name`, `cat`, `pid`, `tid` and `args`, the first with
phase `"B"` and the second with phase `"E"`, and the numeric value denoted by
the `End` record's formatted timestamp is at least that of the `Begin`
record's. -/
theorem c1_begin_end_pair (ctx₀ ctx₁ ctx₂ : Ctx) (name : String) (msg : Option String)
    (events : List EventRecord) (h : ctx₁.now ≤ ctx₂.now) :
    ∃ r₁ r₂ : EventRecord,
      (Event.create ctx₀ name msg).end' ctx₂ ((Event.create ctx₀ name msg).begin ctx₁ events)
        = events ++ [r₁, r₂] ∧
      r₁.name = r₂.name ∧ r₁.cat = r₂.cat ∧ r₁.pid = r₂.pid ∧ r₁.tid = r₂.tid ∧
      r₁.args = r₂.args ∧ r₁.ph = "B" ∧ r₂.ph = "E" ∧
      r₁.ts = fmtSpace3f (ctx₁.now * 10 ^ 6) ∧ r₂.ts = fmtSpace3f (ctx₂.now * 10 ^ 6) ∧
      tsValue ctx₁.now ≤ tsValue ctx₂.now := by
  refine ⟨(Event.create ctx₀ name msg).beginRecord ctx₁,
    (Event.create ctx₀ name msg).endRecord ctx₂, ?_, ?_, ?_, ?_, ?_, ?_, ?_, ?_, ?_, ?_,
    tsValue_mono h⟩
  · simp [Event.begin, Event.end']
  all_goals simp [beginRecord_create, endRecord_create]

/-- C1 witness: a concrete instantiation with begin time 0 and end time 1. -/
theorem c1_begin_end_pair_witness :
    ∃ r₁ r₂ : EventRecord,
      (Event.create ⟨"7", "9", 0⟩ "ev" none).end' ⟨"7", "9", 1⟩
          ((Event.create ⟨"7", "9", 0⟩ "ev" none).begin ⟨"7", "9", 0⟩ [])
        = [] ++ [r₁, r₂] ∧
      r₁.name = r₂.name ∧ r₁.cat = r₂.cat ∧ r₁.pid = r₂.pid ∧ r₁.tid = r₂.tid ∧
      r₁.args = r₂.args ∧ r₁.ph = "B" ∧ r₂.ph = "E" ∧
      r₁.ts = fmtSpace3f ((Ctx.mk "7" "9" 0).now * 10 ^ 6) ∧
      r₂.ts = fmtSpace3f ((Ctx.mk "7" "9" 1).now * 10 ^ 6) ∧
      tsValue (Ctx.mk "7" "9" 0).now ≤ tsValue (Ctx.mk "7" "9" 1).now :=
  c1_begin_end_pair ⟨"7", "9", 0⟩ ⟨"7", "9", 0⟩ ⟨"7", "9", 1⟩ "ev" none [] (by norm_num)

/-- C3 counterexample: an `Event` constructed without a message still
produces a record whose `args` key is present — it maps `message` to `None`
(`null` in the JSON serialization) — refuting "args is absent/omitted when no
message was given". -/
theorem c3_no_message_args_present :
    ((Event.create ⟨"1", "2", 0⟩ "x" none).beginRecord ⟨"1", "2", 0⟩).args = some none ∧
    some (none : Option String) ≠ (none : Option (Option String)) ∧
    ((Event.create ⟨"1", "2", 0⟩ "x" none).beginRecord ⟨"1", "2", 0⟩).toJson.lookup "args"
      = some (Json.obj [("message", Json.null)]) := by
  refine ⟨by simp [beginRecord_create], by simp, ?_⟩
  simp [beginRecord_create, EventRecord.toJson, Json.lookup]

/-- C3 amended: every record appended by `begin()`/`end()` carries the `args`
key; it holds the single key `message`, bound to the supplied message when
one was given and to `None`/`null` otherwise. -/
theorem c3_args_always_present (ctx ctx₁ ctx₂ : Ctx) (name : String) (msg : Option String)
    (events : List EventRecord) :
    ∃ r₁ r₂ : EventRecord,
      (Event.create ctx name msg).begin ctx₁ events = events ++ [r₁] ∧
      (Event.create ctx name msg).end' ctx₂ events = events ++ [r₂] ∧
      r₁.args = some msg ∧ r₂.args = some msg ∧
      r₁.toJson.lookup "args"
        = some (Json.obj [("message", match msg with
            | none => Json.null
            | some s => Json.str s)]) := by
  refine ⟨(Event.create ctx name msg).beginRecord ctx₁,
    (Event.create ctx name msg).endRecord ctx₂, rfl, rfl, ?_, ?_, ?_⟩
  · simp [beginRecord_create]
  · simp [endRecord_create]
  · cases msg <;> simp [beginRecord_create, EventRecord.toJson, Json.lookup]

/-- C4: scoped-acquisition use of an `Event` appends the `Begin` record on
entry and the `End` record on every exit path — in particular when the body
raises (`r` may be `Except.error`), the `End` record is still appended and
the outcome propagates unchanged. -/
theorem c4_scope_always_ends (ctx₀ ctxB ctxE : Ctx) (name : String) (msg : Option String)
    (events mid : List EventRecord) (r : Except ε α)
    (body : List EventRecord → Except ε α × List EventRecord)
    (h : body (events ++ [(Event.create ctx₀ name msg).beginRecord ctxB])
        = (r, events ++ [(Event.create ctx₀ name msg).beginRecord ctxB] ++ mid)) :
    (Event.create ctx₀ name msg).withScope ctxB ctxE body events
      = (r, events ++ [(Event.create ctx₀ name msg).beginRecord ctxB] ++ mid
              ++ [(Event.create ctx₀ name msg).endRecord ctxE]) :=
  withScope_frame _ ctxB ctxE events mid r body h

/-- C4 witness: a body that raises; both records are still appended and the
error is propagated. -/
theorem c4_scope_always_ends_witness :
    (Event.create ⟨"7", "9", 0⟩ "ev" none).withScope ⟨"7", "9", 0⟩ ⟨"7", "9", 1⟩
        (fun l => ((Except.error "boom" : Except String Unit), l)) []
      = (Except.error "boom",
          [] ++ [(Event.create ⟨"7", "9", 0⟩ "ev" none).beginRecord ⟨"7", "9", 0⟩] ++ []
             ++ [(Event.create ⟨"7", "9", 0⟩ "ev" none).endRecord ⟨"7", "9", 1⟩]) :=
  c4_scope_always_ends ⟨"7", "9", 0⟩ ⟨"7", "9", 0⟩ ⟨"7", "9", 1⟩ "ev" none [] []
    (Except.error "boom") _ (by simp)

/-- C9: the `pid` and `tid` of every record appended by `begin()`/`end()` are
those of the context that constructed the `Event` (`ctx₀`), whatever the
ambient contexts `ctx₁`, `ctx₂` at the `begin()`/`end()` calls are — in
particular when `ctx₁.tid ≠ ctx₀.tid`. -/
theorem c9_identity_from_construction (ctx₀ ctx₁ ctx₂ : Ctx) (name : String)
    (msg : Option String) (events : List EventRecord) :
    ∃ r₁ r₂ : EventRecord,
      (Event.create ctx₀ name msg).begin ctx₁ events = events ++ [r₁] ∧
      (Event.create ctx₀ name msg).end' ctx₂ events = events ++ [r₂] ∧
      r₁.pid = ctx₀.pid ∧ r₁.tid = ctx₀.tid ∧
      r₂.pid = ctx₀.pid ∧ r₂.tid = ctx₀.tid := by
  refine ⟨(Event.create ctx₀ name msg).beginRecord ctx₁,
    (Event.create ctx₀ name msg).endRecord ctx₂, rfl, rfl, ?_, ?_, ?_, ?_⟩ <;>
    simp [beginRecord_create, endRecord_create]

/-- C2: with the external lock's reentrancy counter at `cnt` beforehand,
`acquire()` appends the transient `[FileLock.acquire]` Begin/End pair and —
exactly when the lock was not held beforehand (`cnt = 0`) — the
`[FileLock.hold]` Begin record; the matching `release()` (counter `cnt + 1`)
appends the `[FileLock.hold]` End record exactly when it is the outermost
release (`cnt = 0`), and nothing otherwise.  The decision is the
not-locked/locked transition of the external lock's `is_locked` state
queried around each operation. -/
theorem c2_filelock_spans (ctx₀ ctxB ctxE ctxH ctxR : Ctx) (lockfile : String)
    (cnt : Nat) (events events' : List EventRecord) :
    (FileLockEvent.create ctx₀ lockfile).acquire ctxB ctxE ctxH cnt events =
      (cnt + 1,
        (events ++
          [(Event.create ctxB ("[FileLock.acquire]:" ++ lockfile) none).beginRecord ctxB,
           (Event.create ctxB ("[FileLock.acquire]:" ++ lockfile) none).endRecord ctxE]) ++
          (if cnt = 0
           then [(Event.create ctx₀ ("[FileLock.hold]:" ++ lockfile) none).beginRecord ctxH]
           else [])) ∧
    (FileLockEvent.create ctx₀ lockfile).release ctxR (cnt + 1) events' =
      (cnt, events' ++
        (if cnt = 0
         then [(Event.create ctx₀ ("[FileLock.hold]:" ++ lockfile) none).endRecord ctxR]
         else [])) ∧
    ((Event.create ctxB ("[FileLock.acquire]:" ++ lockfile) none).beginRecord ctxB).name
      = "[FileLock.acquire]:" ++ lockfile ∧
    ((Event.create ctxB ("[FileLock.acquire]:" ++ lockfile) none).beginRecord ctxB).ph = "B" ∧
    ((Event.create ctxB ("[FileLock.acquire]:" ++ lockfile) none).endRecord ctxE).name
      = "[FileLock.acquire]:" ++ lockfile ∧
    ((Event.create ctxB ("[FileLock.acquire]:" ++ lockfile) none).endRecord ctxE).ph = "E" ∧
    ((Event.create ctx₀ ("[FileLock.hold]:" ++ lockfile) none).beginRecord ctxH).name
      = "[FileLock.hold]:" ++ lockfile ∧
    ((Event.create ctx₀ ("[FileLock.hold]:" ++ lockfile) none).beginRecord ctxH).ph = "B" ∧
    ((Event.create ctx₀ ("[FileLock.hold]:" ++ lockfile) none).endRecord ctxR).name
      = "[FileLock.hold]:" ++ lockfile ∧
    ((Event.create ctx₀ ("[FileLock.hold]:" ++ lockfile) none).endRecord ctxR).ph = "E" := by
  refine ⟨?_, ?_, ?_, ?_, ?_, ?_, ?_, ?_, ?_, ?_⟩
  · unfold FileLockEvent.acquire FileLockEvent.create
    by_cases hc : cnt = 0 <;>
      simp [hc, Event.begin, Event.end', List.append_assoc]
  · unfold FileLockEvent.release FileLockEvent.create
    by_cases hc : cnt = 0 <;>
      simp [hc, Event.end', List.append_assoc]
  all_goals simp [beginRecord_create, endRecord_create]

/-- C5: when the external lock's acquire call raises, `acquire()` still
appends the `[FileLock.acquire]` End record (the scope closes), appends no
`[FileLock.hold]` record, leaves the counter unchanged, and propagates the
very same error — no retry, no suppression, no substitution. -/
theorem c5_acquire_failure_propagates (ctx₀ ctxB ctxE ctxH : Ctx) (lockfile : String)
    (lockAcq : Nat → Except ε Nat) (err : ε) (cnt : Nat) (events : List EventRecord)
    (h : lockAcq cnt = .error err) :
    (FileLockEvent.create ctx₀ lockfile).acquireGen ctxB ctxE ctxH lockAcq cnt events
      = (.error err, cnt,
          events ++
            [(Event.create ctxB ("[FileLock.acquire]:" ++ lockfile) none).beginRecord ctxB,
             (Event.create ctxB ("[FileLock.acquire]:" ++ lockfile) none).endRecord ctxE]) := by
  unfold FileLockEvent.acquireGen FileLockEvent.create
  simp [h, Event.begin, Event.end', List.append_assoc]

/-- C5 witness: a concrete timeout-style failure at counter 0. -/
theorem c5_acquire_failure_propagates_witness :
    (FileLockEvent.create ⟨"7", "9", 0⟩ "f.lock").acquireGen ⟨"7", "9", 1⟩ ⟨"7", "9", 2⟩
        ⟨"7", "9", 3⟩ (fun _ => (Except.error "Timeout" : Except String Nat)) 0 []
      = (.error "Timeout", 0,
          [] ++
            [(Event.create ⟨"7", "9", 1⟩ ("[FileLock.acquire]:" ++ "f.lock") none).beginRecord
               ⟨"7", "9", 1⟩,
             (Event.create ⟨"7", "9", 1⟩ ("[FileLock.acquire]:" ++ "f.lock") none).endRecord
               ⟨"7", "9", 2⟩]) :=
  c5_acquire_failure_propagates ⟨"7", "9", 0⟩ ⟨"7", "9", 1⟩ ⟨"7", "9", 2⟩ ⟨"7", "9", 3⟩
    "f.lock" (fun _ => Except.error "Timeout") "Timeout" 0 [] rfl

/-- C6: `_save_timeline` writes (overwriting anything previously at the
path) a single JSON document whose top-level keys are exactly `traceEvents`
(the full buffer in insertion order), `displayTimeUnit = "ms"`, and
`otherData` with `log_dir` the parent directory of the output path; it
ensures the destination directory exists, leaves other files untouched, and
removes no existing directory. -/
theorem c6_save_timeline (file_path : String) (events : List EventRecord) (fs : FileSystem)
    (h : posixDirname file_path ≠ "") :
    ∃ fs' : FileSystem, _save_timeline file_path events fs = some fs' ∧
      fs'.files file_path = some (Json.obj
        [("traceEvents", Json.arr (events.map EventRecord.toJson)),
         ("displayTimeUnit", Json.str "ms"),
         ("otherData", Json.obj [("log_dir", Json.str (posixDirname file_path))])]) ∧
      fs'.dirs (posixDirname file_path) = true ∧
      (∀ d ∈ parentChain ((posixDirname file_path).length + 1) (posixDirname file_path),
        fs'.dirs d = true) ∧
      (∀ q, q ≠ file_path → fs'.files q = fs.files q) ∧
      (∀ d, fs.dirs d = true → fs'.dirs d = true) := by
  refine ⟨{ dirs := fun q =>
              if q ∈ parentChain ((posixDirname file_path).length + 1) (posixDirname file_path)
              then true else fs.dirs q,
            files := fun q =>
              if q = file_path then some (timelineJson file_path events) else fs.files q },
    ?_, ?_, ?_, ?_, ?_, ?_⟩
  · unfold _save_timeline makedirs
    simp [h]
  · simp [timelineJson]
  · have hm := self_mem_parentChain h (posixDirname file_path).length
    simp [hm]
  · intro d hd
    simp [hd]
  · intro q hq
    simp [hq]
  · intro d hd
    by_cases hm : d ∈ parentChain ((posixDirname file_path).length + 1) (posixDirname file_path)
      <;> simp [hm, hd]

/-- C6 witness: saving to `/tmp/logs/timeline.json` over a filesystem that
already holds a (different) document at every path — the old document at the
output path is overwritten. -/
theorem c6_save_timeline_witness :
    ∃ fs' : FileSystem,
      _save_timeline "/tmp/logs/timeline.json" []
          { dirs := fun _ => false, files := fun _ => some Json.null } = some fs' ∧
      fs'.files "/tmp/logs/timeline.json" = some (Json.obj
        [("traceEvents", Json.arr (([] : List EventRecord).map EventRecord.toJson)),
         ("displayTimeUnit", Json.str "ms"),
         ("otherData", Json.obj
           [("log_dir", Json.str (posixDirname "/tmp/logs/timeline.json"))])]) ∧
      fs'.dirs (posixDirname "/tmp/logs/timeline.json") = true ∧
      (∀ d ∈ parentChain ((posixDirname "/tmp/logs/timeline.json").length + 1)
          (posixDirname "/tmp/logs/timeline.json"), fs'.dirs d = true) ∧
      (∀ q, q ≠ "/tmp/logs/timeline.json" → fs'.files q = some Json.null) ∧
      (∀ d, false = true → fs'.dirs d = true) :=
  c6_save_timeline "/tmp/logs/timeline.json" []
    { dirs := fun _ => false, files := fun _ => some Json.null } (by decide)

/-- C7: the `ts` field of every record appended by `begin()`/`end()` is the
wall-clock time multiplied by `10^6`, formatted by the `' .3f'` format spec:
a leading space (for the non-negative time), the integer part, a decimal
point, and exactly three digits after it — and `json.dump` serializes it as
a JSON string, not a number. -/
theorem c7_ts_format (ctx₀ ctx : Ctx) (name : String) (msg : Option String)
    (h : 0 ≤ ctx.now) :
    ((Event.create ctx₀ name msg).beginRecord ctx).ts = fmtSpace3f (ctx.now * 10 ^ 6) ∧
    ((Event.create ctx₀ name msg).endRecord ctx).ts = fmtSpace3f (ctx.now * 10 ^ 6) ∧
    fmtSpace3f (ctx.now * 10 ^ 6)
      = " " ++ natRepr ((round (ctx.now * 10 ^ 6 * 1000)).natAbs / 1000) ++ "." ++
          ⟨pad3 ((round (ctx.now * 10 ^ 6 * 1000)).natAbs % 1000)⟩ ∧
    (pad3 ((round (ctx.now * 10 ^ 6 * 1000)).natAbs % 1000)).length = 3 ∧
    (∀ c ∈ pad3 ((round (ctx.now * 10 ^ 6 * 1000)).natAbs % 1000), c.isDigit = true) ∧
    (∀ c ∈ (natRepr ((round (ctx.now * 10 ^ 6 * 1000)).natAbs / 1000)).data, c ≠ '.') ∧
    ((Event.create ctx₀ name msg).beginRecord ctx).toJson.lookup "ts"
      = some (Json.str (fmtSpace3f (ctx.now * 10 ^ 6))) := by
  have hx : (0 : ℚ) ≤ ctx.now * 10 ^ 6 := mul_nonneg h (by norm_num)
  refine ⟨by simp [beginRecord_create], by simp [endRecord_create],
    fmtSpace3f_nonneg hx, pad3_length _, pad3_digits _, ?_, ?_⟩
  · intro c hc
    exact isDigit_ne_dot (natRepr_digits _ c hc)
  · rw [toJson_lookup_ts]
    simp [beginRecord_create]

/-- C7 witness: a concrete instantiation at wall-clock time 0. -/
theorem c7_ts_format_witness :
    ((Event.create ⟨"7", "9", 0⟩ "ev" none).beginRecord ⟨"7", "9", 0⟩).ts
        = fmtSpace3f ((Ctx.mk "7" "9" 0).now * 10 ^ 6) ∧
    ((Event.create ⟨"7", "9", 0⟩ "ev" none).endRecord ⟨"7", "9", 0⟩).ts
        = fmtSpace3f ((Ctx.mk "7" "9" 0).now * 10 ^ 6) ∧
    fmtSpace3f ((Ctx.mk "7" "9" 0).now * 10 ^ 6)
      = " " ++ natRepr ((round ((Ctx.mk "7" "9" 0).now * 10 ^ 6 * 1000)).natAbs / 1000) ++ "." ++
          ⟨pad3 ((round ((Ctx.mk "7" "9" 0).now * 10 ^ 6 * 1000)).natAbs % 1000)⟩ ∧
    (pad3 ((round ((Ctx.mk "7" "9" 0).now * 10 ^ 6 * 1000)).natAbs % 1000)).length = 3 ∧
    (∀ c ∈ pad3 ((round ((Ctx.mk "7" "9" 0).now * 10 ^ 6 * 1000)).natAbs % 1000),
        c.isDigit = true) ∧
    (∀ c ∈ (natRepr ((round ((Ctx.mk "7" "9" 0).now * 10 ^ 6 * 1000)).natAbs / 1000)).data,
        c ≠ '.') ∧
    ((Event.create ⟨"7", "9", 0⟩ "ev" none).beginRecord ⟨"7", "9", 0⟩).toJson.lookup "ts"
      = some (Json.str (fmtSpace3f ((Ctx.mk "7" "9" 0).now * 10 ^ 6))) :=
  c7_ts_format ⟨"7", "9", 0⟩ ⟨"7", "9", 0⟩ "ev" none (by norm_num)

/-- C8: the no-name form of the `event` decorator wraps calls in an `Event`
named `<module>.<qualname>` when the function's module attribute is
non-empty and just `<qualname>` otherwise; applying it directly to a
non-function value raises the `ValueError`; and every call of a decorated
function runs inside the scoped `Event` (Begin and End records bracket the
body's appends, outcome unchanged). -/
theorem c8_decorator_naming (f : PyFunction) (msg : Option String) :
    (f.module ≠ "" →
      event (.func f) msg = .ok { name := f.module ++ "." ++ f.qualname, message := msg }) ∧
    (f.module = "" →
      event (.func f) msg = .ok { name := f.qualname, message := msg }) ∧
    event .nonFunc msg = .error "Should directly apply the decorator to a function." ∧
    (∀ (ε α : Type) (d : Decorated) (ctxB ctxE : Ctx) (events mid : List EventRecord)
        (r : Except ε α) (body : List EventRecord → Except ε α × List EventRecord),
      body (events ++ [(Event.create ctxB d.name d.message).beginRecord ctxB])
          = (r, events ++ [(Event.create ctxB d.name d.message).beginRecord ctxB] ++ mid) →
      d.call ctxB ctxE body events
        = (r, events ++ [(Event.create ctxB d.name d.message).beginRecord ctxB] ++ mid
                ++ [(Event.create ctxB d.name d.message).endRecord ctxE])) := by
  refine ⟨?_, ?_, rfl, ?_⟩
  · intro hm
    simp [event, fullNameOf, hm]
  · intro hm
    simp [event, fullNameOf, hm]
  · intro ε α d ctxB ctxE events mid r body hb
    exact withScope_frame _ _ _ _ _ _ _ hb

/-- C8 witness: `Foo.bar` in module `pkg.mod` yields event name
`pkg.mod.Foo.bar`; a non-function value yields the usage error. -/
theorem c8_decorator_naming_witness :
    event (.func { qualname := "Foo.bar", module := "pkg.mod" }) none
        = .ok { name := "pkg.mod.Foo.bar", message := none } ∧
    event .nonFunc none = .error "Should directly apply the decorator to a function." := by
  have h := c8_decorator_naming { qualname := "Foo.bar", module := "pkg.mod" } none
  exact ⟨h.1 (by decide), h.2.2.1⟩

/-- C10: the exit-time flush is registered iff the output-path environment
variable is present and non-empty; setting it to the empty string behaves
exactly as its absence — the guard is false, no exit action is registered,
and process exit writes nothing to the filesystem. -/
theorem c10_registration_guard (env : String → Option String) :
    (registerGuard env = true ↔
      ∃ s, env "SKY_TIMELINE_FILE_PATH" = some s ∧ s ≠ "") ∧
    (env "SKY_TIMELINE_FILE_PATH" = some "" →
      registerGuard env = false ∧ exitActions env = [] ∧
      ∀ events fs, atExitRun env events fs = fs) ∧
    (env "SKY_TIMELINE_FILE_PATH" = none →
      registerGuard env = false ∧ exitActions env = []) := by
  refine ⟨?_, ?_, ?_⟩
  · unfold registerGuard
    cases he : env "SKY_TIMELINE_FILE_PATH" <;> simp [he]
  · intro he
    have hg : registerGuard env = false := by unfold registerGuard; simp [he]
    refine ⟨hg, by unfold exitActions; simp [hg], ?_⟩
    intro events fs
    unfold atExitRun exitActions
    simp [hg]
  · intro he
    have hg : registerGuard env = false := by unfold registerGuard; simp [he]
    exact ⟨hg, by unfold exitActions; simp [hg]⟩

/-- C10 witness: an environment with the variable set to the empty string. -/
theorem c10_registration_guard_witness :
    registerGuard (fun _ => some "") = false ∧
    exitActions (fun _ => some "") = [] ∧
    atExitRun (fun _ => some "") []
        { dirs := fun _ => false, files := fun _ => none }
      = { dirs := fun _ => false, files := fun _ => none } := by
  have h := (c10_registration_guard (fun _ => some "")).2.1 rfl
  exact ⟨h.1, h.2.1, h.2.2 [] _⟩

end Timeline
